import Mathlib

/-!
Shallow embedding of the binance-volume-alert program (Go). The repository has
three variants of the same monitor: a per-chat Telegram bot with persisted
per-session state, a single-session Telegram bot with one global boolean, and a
console-only loop. The volume fetcher, the ratio computation, the alert
condition and the loop structure are identical across the variants; the
embedding below models them over rational numbers (standing in for float64),
with explicit result constructors for the Go outcomes (populated pointer, nil
pointer with nil error, error, runtime panic).
-/

namespace VolumeAlert

/-- JSON values as they appear inside a decoded Go interface slice. A kline
record decoded into BinanceKline ([]interface\x7b\x7d) holds values of these
shapes: strings, numbers, booleans, null, nested arrays. -/
inductive JVal where
  | str (s : String)
  | num (q : ℚ)
  | boolean (b : Bool)
  | null
  | arr (xs : List JVal)

/-- One kline record, Go type BinanceKline = []interface\x7b\x7d. -/
abbrev BinanceKline := List JVal

/-- Go struct VolumeData: previous hour volume, current hour volume, and the
derived ratio, all float64 in the source, modelled as rationals. -/
structure VolumeData where
  prevVolume : ℚ
  currVolume : ℚ
  ratio : ℚ
deriving DecidableEq

/-- Value of a list of decimal digit characters read left to right. -/
def digitsVal (cs : List Char) : ℕ :=
  cs.foldl (fun acc c => 10 * acc + (c.toNat - 48)) 0

/-- Models strconv.ParseFloat on the plain decimal forms delivered by the
kline API: optional sign, integer digits, optional fraction. Returns none on
a malformed string (which ParseFloat signals with a zero value and an error).
The value of sign, intPart, fracPart is the rational
sign * (intPart.fracPart scaled by the fraction length). Exponent and special
float forms are outside the modelled input space. -/
def parseDecimal (s : String) : Option ℚ :=
  match s.toList with
  | [] => none
  | '-' :: cs => (parseUnsigned cs).map (fun q => -q)
  | '+' :: cs => parseUnsigned cs
  | cs => parseUnsigned cs
where
  parseUnsigned (cs : List Char) : Option ℚ :=
    let intPart := cs.takeWhile Char.isDigit
    let rest := cs.dropWhile Char.isDigit
    match rest with
    | [] =>
      if intPart.isEmpty then none
      else some (mkRat (digitsVal intPart) 1)
    | '.' :: frac =>
      if frac.all Char.isDigit ∧ ¬(intPart.isEmpty ∧ frac.isEmpty) then
        some (mkRat (digitsVal intPart * 10 ^ frac.length + digitsVal frac) (10 ^ frac.length))
      else none
    | _ => none

/-- The Go lines prevVolume, _ := strconv.ParseFloat(..., 64): the returned
error is discarded, and ParseFloat yields 0 alongside a syntax error, so a
malformed string collapses to volume 0. -/
def parseVolume (s : String) : ℚ :=
  (parseDecimal s).getD 0

/-- The Go expression kline[5].(string): index 5 of the record followed by an
unchecked type assertion. Indexing past the end of the record or asserting a
non-string value is a runtime panic, modelled as the error branch. -/
def volumeFieldString (k : BinanceKline) : Except String String :=
  match k[5]? with
  | none => .error "index out of range"
  | some (JVal.str s) => .ok s
  | some _ => .error "interface conversion"

/-- The input getBinanceVolume observes from the HTTP layer: a transport
failure, or a response with its status code, whether reading the body failed,
and the result of json.Unmarshal on the body (none = unmarshal error). -/
inductive KlineHttpResult where
  | networkError
  | response (statusCode : Int) (readError : Bool) (decoded : Option (List BinanceKline))

/-- The possible outcomes of the Go pair (*VolumeData, error) together with a
runtime panic: a populated sample (some data, nil error), the no-signal result
(nil data, nil error), an error (nil data, non-nil error), or a panic raised
by the volume field extraction. -/
inductive FetchResult where
  | sample (d : VolumeData)
  | noSignal
  | fetchError (msg : String)
  | goPanic (msg : String)
deriving DecidableEq

/-- Embedding of getBinanceVolume (identical in main.go lines 84 to 125 and in
the two other variants): status 400 returns nil, nil before the body is read;
a body read failure or unmarshal failure returns an error; fewer than two
records returns the insufficient kline data error; then both volume fields are
extracted (panicking on a non-string field, in record order), a zero parsed
previous volume returns nil, nil, and otherwise the sample with ratio
currVolume / prevVolume is returned. -/
def getBinanceVolume (resp : KlineHttpResult) : FetchResult :=
  match resp with
  | .networkError => .fetchError "failed to get kline data"
  | .response statusCode readError decoded =>
    if statusCode = 400 then .noSignal
    else if readError then .fetchError "failed to read response body"
    else
      match decoded with
      | none => .fetchError "failed to unmarshal klines"
      | some (k0 :: k1 :: _) =>
        match volumeFieldString k0 with
        | .error m => .goPanic m
        | .ok prevStr =>
          match volumeFieldString k1 with
          | .error m => .goPanic m
          | .ok currStr =>
            let prevVolume := parseVolume prevStr
            let currVolume := parseVolume currStr
            if prevVolume = 0 then .noSignal
            else .sample ⟨prevVolume, currVolume, currVolume / prevVolume⟩
      | some _ => .fetchError "insufficient kline data"

/-- Observable actions of one monitoring task, in program order: the outbound
kline request for a symbol, the alert message sent for a symbol, the per-symbol
error log line, the snapshot fetch error log line, the 100 ms courtesy delay
between symbols, the 5 minute backoff after a snapshot failure, the check
completed log line, and the 5 minute delay between cycles. -/
inductive Event where
  | volumeRequest (symbol : String)
  | alert (symbol : String) (d : VolumeData)
  | logVolumeError (symbol : String)
  | logSnapshotError
  | sleepInterSymbol
  | sleepBackoff
  | checkCompleted
  | sleepInterCycle
deriving DecidableEq

/-- The body of the inner per-symbol loop once the stop flag has been read as
running: issue the kline request; on a fetch error, log and continue (the Go
continue skips the 100 ms sleep); on nil data do nothing; on a sample, alert
exactly when ratio is strictly greater than 5; then the 100 ms sleep. A panic
raised inside getBinanceVolume escapes as the error branch. -/
def processSymbol (symbol : String) (resp : KlineHttpResult) :
    Except String (List Event) :=
  match getBinanceVolume resp with
  | .goPanic m => .error m
  | .fetchError _ => .ok [Event.volumeRequest symbol, Event.logVolumeError symbol]
  | .noSignal => .ok [Event.volumeRequest symbol, Event.sleepInterSymbol]
  | .sample d =>
    if 5 < d.ratio then
      .ok [Event.volumeRequest symbol, Event.alert symbol d, Event.sleepInterSymbol]
    else
      .ok [Event.volumeRequest symbol, Event.sleepInterSymbol]

/-- Prepends a fixed list of events to the event part of an inner loop result,
propagating a panic unchanged. -/
def consEvents (pre : List Event)
    (r : Except String (Nat × List Event × Bool)) :
    Except String (Nat × List Event × Bool) :=
  match r with
  | .error m => .error m
  | .ok (k, evs, stopped) => .ok (k, pre ++ evs, stopped)

/-- Prepends a fixed list of events to an outer loop trace, propagating a
panic unchanged. -/
def consTrace (pre : List Event) (r : Except String (List Event)) :
    Except String (List Event) :=
  match r with
  | .error m => .error m
  | .ok evs => .ok (pre ++ evs)

/-- The inner for-symbol loop of startMonitoring. The concurrently mutated
stop flag is modelled as an oracle from the index of the flag read to the
value read; k counts the flag reads performed so far. The loop reads the flag
before each kline request and returns as soon as it observes false. The input
list pairs each symbol with the HTTP outcome its kline request would observe.
Returns the updated read counter, the emitted events, and whether the loop
returned early because it observed the stopped state. -/
def runSymbols (flag : Nat → Bool) :
    Nat → List (String × KlineHttpResult) →
    Except String (Nat × List Event × Bool)
  | k, [] => .ok (k, [], false)
  | k, (symbol, resp) :: rest =>
    if flag k then
      match processSymbol symbol resp with
      | .error m => .error m
      | .ok evs => consEvents evs (runSymbols flag (k + 1) rest)
    else
      .ok (k + 1, [], true)

/-- One cycle of inputs for the outer loop: none models a getMarketCapRank
failure, some gives the ranked symbols each paired with the HTTP outcome of
its kline request. -/
abbrev CycleInput := Option (List (String × KlineHttpResult))

/-- The outer loop of startMonitoring, driven by a finite list of cycle
inputs (a finite observation window of the infinite Go loop). Each iteration
first reads the stop flag and returns if it observes false; a snapshot fetch
failure logs, sleeps 5 minutes, and retries with the next cycle input; after
a completed symbol pass the completion line is logged, the inter cycle sleep
runs, and the loop repeats. The console variant of the loop is the special
case flag = fun k => true. -/
def runLoop (flag : Nat → Bool) :
    Nat → List CycleInput → Except String (List Event)
  | _, [] => .ok []
  | k, c :: rest =>
    if flag k then
      match c with
      | none =>
        consTrace [Event.logSnapshotError, Event.sleepBackoff]
          (runLoop flag (k + 1) rest)
      | some syms =>
        match runSymbols flag (k + 1) syms with
        | .error m => .error m
        | .ok (k2, evs, stopped) =>
          if stopped then .ok evs
          else
            consTrace evs
              (consTrace [Event.checkCompleted, Event.sleepInterCycle]
                (runLoop flag k2 rest))
    else
      .ok []

/-- The in-memory monitoring state of the per-chat variant: the sync.Map from
chat id to the enabled flag, modelled as an association list whose key list
is duplicate free wherever that matters. -/
abbrev StatusMap := List (Int × Bool)

/-- The serialized monitoring_status.json document: the key to flag pairs of
one JSON object. json.Unmarshal of such an object yields a Go map, so a
document read back always has duplicate free keys. -/
abbrev StatusDoc := List (Int × Bool)

/-- sync.Map.Load on the status map: the first entry with the given key. -/
def lookupStatus (m : StatusMap) (chatID : Int) : Option Bool :=
  (m.find? (fun e => e.1 == chatID)).map (fun e => e.2)

/-- sync.Map.Store on the status map: replace the entry with the given key,
or append a fresh one. -/
def storeStatus : StatusMap → Int → Bool → StatusMap
  | [], chatID, b => [(chatID, b)]
  | e :: rest, chatID, b =>
    if e.1 == chatID then (chatID, b) :: rest
    else e :: storeStatus rest chatID b

/-- Insertion of one entry into a key-sorted entry list, used to model the
key ordering json.Marshal applies to a Go map. -/
def insertEntry (e : Int × Bool) : List (Int × Bool) → List (Int × Bool)
  | [] => [e]
  | f :: rest => if e.1 ≤ f.1 then e :: f :: rest else f :: insertEntry e rest

/-- Key ordering applied by json.Marshal to a Go map: the serialized object
lists the entries sorted by key. -/
def sortStatusEntries : List (Int × Bool) → List (Int × Bool)
  | [] => []
  | e :: rest => insertEntry e (sortStatusEntries rest)

/-- Embedding of saveMonitoringStatus: snapshot the sync.Map into a plain map,
json.Marshal it (which orders the object by key), and write the file. The
write either succeeds, leaving the document on disk, or fails, which the Go
code only logs; the returned value is the document that a successful write
leaves behind. -/
def saveMonitoringStatus (m : StatusMap) : Option StatusDoc :=
  some (sortStatusEntries m)

/-- The chat ids of the sessions recorded as enabled, in document order. -/
def enabledIds (doc : StatusDoc) : List Int :=
  (doc.filter (fun e => e.2)).map (fun e => e.1)

/-- Embedding of loadMonitoringStatus, run at process start on the empty
sync.Map: a missing file returns at once (no error, nothing stored, no loop
spawned); otherwise every document entry is stored into the map and a
monitoring goroutine is spawned for every enabled entry. Returns the
resulting status map and the chat ids whose loops were spawned. -/
def loadMonitoringStatus (file : Option StatusDoc) : StatusMap × List Int :=
  match file with
  | none => ([], [])
  | some doc => (doc, enabledIds doc)

/-- The chat commands the bot dispatches on. -/
inductive BotCommand where
  | start
  | monitor
  | stop
  | status

/-- The observable outcome of handling one command for one chat in the
per-chat variant: the resulting status map, the chat ids for which a new
monitoring goroutine was spawned, whether saveMonitoringStatus was invoked,
and the reply text sent to the chat. -/
structure CommandEffect where
  map : StatusMap
  spawned : List Int
  saved : Bool
  reply : String
deriving DecidableEq

/-- The Go test monitoring != nil && monitoring.(bool): an absent key or a
stored false both count as not monitoring. -/
def isMonitoring (m : StatusMap) (chatID : Int) : Bool :=
  (lookupStatus m chatID).getD false

/-- Embedding of the command dispatch of handleCommands in the per-chat
variant, together with the immediate effects of the goroutine it spawns: the
monitor command with the session already running only replies, and otherwise
spawns startMonitoring, whose first actions store true and persist; the stop
command with the session not running only replies, and otherwise stores
false, persists, and replies; start and status only reply. -/
def handleCommand (m : StatusMap) (chatID : Int) : BotCommand → CommandEffect
  | .start =>
    ⟨m, [], false, "Welcome to Binance Volume Monitor Bot!"⟩
  | .monitor =>
    if isMonitoring m chatID then
      ⟨m, [], false, "Monitoring is already running!"⟩
    else
      ⟨storeStatus m chatID true, [chatID], true, "Volume monitoring started!"⟩
  | .stop =>
    if isMonitoring m chatID then
      ⟨storeStatus m chatID false, [], true, "Volume monitoring stopped!"⟩
    else
      ⟨m, [], false, "Monitoring is not running!"⟩
  | .status =>
    ⟨m, [], false,
      if isMonitoring m chatID then "Monitoring is currently running"
      else "Monitoring is currently stopped"⟩

/-- Concrete kline response in which the previous hour volume is 100.0 and
the current hour volume is 600.0, giving ratio 6. -/
def respSix : KlineHttpResult :=
  .response 200 false (some
    [[.str "", .str "", .str "", .str "", .str "", .str "100.0"],
     [.str "", .str "", .str "", .str "", .str "", .str "600.0"]])

/-- Concrete kline response in which the previous hour volume is 100.0 and
the current hour volume is 500.0, giving ratio exactly 5. -/
def respFive : KlineHttpResult :=
  .response 200 false (some
    [[.str "", .str "", .str "", .str "", .str "", .str "100.0"],
     [.str "", .str "", .str "", .str "", .str "", .str "500.0"]])

/-- Concrete kline response with two records in which the previous hour
volume field is the string 0 but the current hour volume field is a JSON
number rather than a string. -/
def respZeroPrevNumCurr : KlineHttpResult :=
  .response 200 false (some
    [[.str "", .str "", .str "", .str "", .str "", .str "0"],
     [.str "", .str "", .str "", .str "", .str "", .num 1]])

/-- Concrete kline response with two records in which the previous hour
volume field is a JSON number rather than a string. -/
def respNumPrev : KlineHttpResult :=
  .response 200 false (some
    [[.str "", .str "", .str "", .str "", .str "", .num 7],
     [.str "", .str "", .str "", .str "", .str "", .str "1.0"]])

/-- Behavior of the per-symbol step when the fetch panics. -/
theorem processSymbol_goPanic (symbol : String) (resp : KlineHttpResult)
    (m : String) (h : getBinanceVolume resp = .goPanic m) :
    processSymbol symbol resp = .error m := by
  rw [processSymbol, h]

/-- Behavior of the per-symbol step when the fetch returns an error. -/
theorem processSymbol_fetchError (symbol : String) (resp : KlineHttpResult)
    (m : String) (h : getBinanceVolume resp = .fetchError m) :
    processSymbol symbol resp =
      .ok [Event.volumeRequest symbol, Event.logVolumeError symbol] := by
  rw [processSymbol, h]

/-- Behavior of the per-symbol step when the fetch returns nil, nil. -/
theorem processSymbol_noSignal (symbol : String) (resp : KlineHttpResult)
    (h : getBinanceVolume resp = .noSignal) :
    processSymbol symbol resp =
      .ok [Event.volumeRequest symbol, Event.sleepInterSymbol] := by
  rw [processSymbol, h]

/-- Behavior of the per-symbol step when the fetch returns a sample. -/
theorem processSymbol_sample (symbol : String) (resp : KlineHttpResult)
    (d : VolumeData) (h : getBinanceVolume resp = .sample d) :
    processSymbol symbol resp =
      if 5 < d.ratio then
        .ok [Event.volumeRequest symbol, Event.alert symbol d, Event.sleepInterSymbol]
      else
        .ok [Event.volumeRequest symbol, Event.sleepInterSymbol] := by
  rw [processSymbol, h]

/-- Unfolding of the inner loop on a pending symbol. -/
theorem runSymbols_cons (flag : Nat → Bool) (k : Nat) (symbol : String)
    (resp : KlineHttpResult) (rest : List (String × KlineHttpResult)) :
    runSymbols flag k ((symbol, resp) :: rest) =
      if flag k then
        match processSymbol symbol resp with
        | .error m => .error m
        | .ok evs => consEvents evs (runSymbols flag (k + 1) rest)
      else .ok (k + 1, [], true) := rfl

/-- Unfolding of the outer loop on a pending cycle. -/
theorem runLoop_cons (flag : Nat → Bool) (k : Nat) (c : CycleInput)
    (rest : List CycleInput) :
    runLoop flag k (c :: rest) =
      if flag k then
        match c with
        | none =>
          consTrace [Event.logSnapshotError, Event.sleepBackoff]
            (runLoop flag (k + 1) rest)
        | some syms =>
          match runSymbols flag (k + 1) syms with
          | .error m => .error m
          | .ok (k2, evs, stopped) =>
            if stopped then .ok evs
            else
              consTrace evs
                (consTrace [Event.checkCompleted, Event.sleepInterCycle]
                  (runLoop flag k2 rest))
      else .ok [] := rfl

/-- C1: the per-symbol step of the monitoring loop emits an alert for a
symbol exactly when the volume fetcher returned a populated sample whose
ratio is strictly greater than 5; in particular a sample whose ratio equals
5 never produces an alert. -/
theorem c1_alert_iff_ratio_gt_five :
    (∀ symbol resp evs, processSymbol symbol resp = .ok evs →
      ((∃ d, Event.alert symbol d ∈ evs) ↔
        ∃ d, getBinanceVolume resp = .sample d ∧ 5 < d.ratio))
    ∧ (∀ symbol resp d evs, getBinanceVolume resp = .sample d → d.ratio = 5 →
        processSymbol symbol resp = .ok evs → Event.alert symbol d ∉ evs) := by
  have h1 : ∀ symbol resp evs, processSymbol symbol resp = .ok evs →
      ((∃ d, Event.alert symbol d ∈ evs) ↔
        ∃ d, getBinanceVolume resp = .sample d ∧ 5 < d.ratio) := by
    intro symbol resp evs h
    cases hg : getBinanceVolume resp with
    | sample d =>
      rw [processSymbol_sample symbol resp d hg] at h
      by_cases hr : 5 < d.ratio
      · rw [if_pos hr] at h
        simp only [Except.ok.injEq] at h
        subst h
        simp [hg, hr]
      · rw [if_neg hr] at h
        simp only [Except.ok.injEq] at h
        subst h
        simp [hg, hr]
    | noSignal =>
      rw [processSymbol_noSignal symbol resp hg] at h
      simp only [Except.ok.injEq] at h
      subst h
      simp [hg]
    | fetchError m =>
      rw [processSymbol_fetchError symbol resp m hg] at h
      simp only [Except.ok.injEq] at h
      subst h
      simp [hg]
    | goPanic m =>
      rw [processSymbol_goPanic symbol resp m hg] at h
      simp at h
  refine ⟨h1, ?_⟩
  intro symbol resp d evs hg h5 hp hmem
  obtain ⟨d2, hd2, hlt⟩ := (h1 symbol resp evs hp).mp ⟨d, hmem⟩
  rw [hg] at hd2
  simp only [FetchResult.sample.injEq] at hd2
  subst hd2
  rw [h5] at hlt
  exact absurd hlt (by norm_num)

/-- Witness for C1 at two concrete responses: on respSix the alert branch is
taken and the fetched sample has ratio above 5; on respFive, whose sample has
ratio exactly 5, the emitted events hold no alert. -/
theorem c1_alert_iff_ratio_gt_five_witness :
    (∃ d, getBinanceVolume respSix = FetchResult.sample d ∧ 5 < d.ratio)
    ∧ Event.alert "BTCUSDT" ⟨100, 500, (500 : ℚ) / 100⟩ ∉
        [Event.volumeRequest "BTCUSDT", Event.sleepInterSymbol] := by
  have hg6 : getBinanceVolume respSix = .sample ⟨100, 600, (600 : ℚ) / 100⟩ := rfl
  have hp6 : processSymbol "ETHUSDT" respSix =
      .ok [Event.volumeRequest "ETHUSDT",
           Event.alert "ETHUSDT" ⟨100, 600, (600 : ℚ) / 100⟩,
           Event.sleepInterSymbol] := by
    rw [processSymbol_sample "ETHUSDT" respSix _ hg6, if_pos (by norm_num)]
  have hg5 : getBinanceVolume respFive = .sample ⟨100, 500, (500 : ℚ) / 100⟩ := rfl
  have hp5 : processSymbol "BTCUSDT" respFive =
      .ok [Event.volumeRequest "BTCUSDT", Event.sleepInterSymbol] := by
    rw [processSymbol_sample "BTCUSDT" respFive _ hg5, if_neg (by norm_num)]
  exact ⟨(c1_alert_iff_ratio_gt_five.1 "ETHUSDT" respSix _ hp6).mp
      ⟨⟨100, 600, (600 : ℚ) / 100⟩, by simp⟩,
    c1_alert_iff_ratio_gt_five.2 "BTCUSDT" respFive _ _ hg5 (by norm_num) hp5⟩

/-- C9: the stop flag is read before each per-symbol request, and a read that
observes the stopped state returns from the loop at once, with no kline
request and no alert for the pending symbol; an inner pass that observed the
stop makes the outer loop return with only the events emitted before that
observation, processing no further cycles; and once the flag stays false from
some read index on, the outer loop run from any later read index emits no
event at all, in particular no volume request and no alert. -/
theorem c9_cooperative_cancellation :
    (∀ flag k symbol resp rest, flag k = false →
      runSymbols flag k ((symbol, resp) :: rest) = .ok (k + 1, [], true))
    ∧ (∀ flag k syms rest k2 evs, flag k = true →
      runSymbols flag (k + 1) syms = .ok (k2, evs, true) →
      runLoop flag k (some syms :: rest) = .ok evs)
    ∧ (∀ (flag : Nat → Bool) K k cycles, (∀ j, K ≤ j → flag j = false) →
      K ≤ k → runLoop flag k cycles = .ok []) := by
  refine ⟨?_, ?_, ?_⟩
  · intro flag k symbol resp rest h
    rw [runSymbols_cons, if_neg (by simp [h])]
  · intro flag k syms rest k2 evs h hrs
    rw [runLoop_cons, if_pos h]
    simp [hrs]
  · intro flag K k cycles hstop hk
    cases cycles with
    | nil => rfl
    | cons c rest => rw [runLoop_cons, if_neg (by simp [hstop k hk])]

/-- Witness for C9: with a flag that turns false after the first read, the
inner loop returns at once on its pending symbol, the outer loop run on that
cycle ends with no event and drops its remaining cycle, and with a constantly
false flag the outer loop emits nothing at all. -/
theorem c9_cooperative_cancellation_witness :
    runSymbols (fun j => j == 0) 1 [("BTCUSDT", KlineHttpResult.networkError)] =
      .ok (2, [], true)
    ∧ runLoop (fun j => j == 0) 0
        [some [("BTCUSDT", KlineHttpResult.networkError)], none] = .ok []
    ∧ runLoop (fun _ => false) 0 [none] = .ok [] :=
  ⟨c9_cooperative_cancellation.1 (fun j => j == 0) 1 "BTCUSDT" .networkError [] rfl,
   c9_cooperative_cancellation.2.1 (fun j => j == 0) 0
     [("BTCUSDT", KlineHttpResult.networkError)] [none] 2 [] rfl
     (c9_cooperative_cancellation.1 (fun j => j == 0) 1 "BTCUSDT" .networkError [] rfl),
   c9_cooperative_cancellation.2.2 (fun _ => false) 0 0 [none] (fun _ _ => rfl)
     (Nat.le_refl 0)⟩

/-- C8: a snapshot fetch failure in a running cycle only logs, backs off and
retries with the next cycle, the tail of the run being exactly the run of the
remaining cycles; and a volume fetch error for one symbol only logs and
continues with the remaining symbols of the same cycle. -/
theorem c8_error_containment :
    (∀ flag k rest, flag k = true →
      runLoop flag k (none :: rest) =
        consTrace [Event.logSnapshotError, Event.sleepBackoff]
          (runLoop flag (k + 1) rest))
    ∧ (∀ flag k symbol resp rest msg, flag k = true →
      getBinanceVolume resp = .fetchError msg →
      runSymbols flag k ((symbol, resp) :: rest) =
        consEvents [Event.volumeRequest symbol, Event.logVolumeError symbol]
          (runSymbols flag (k + 1) rest)) := by
  constructor
  · intro flag k rest h
    rw [runLoop_cons, if_pos h]
  · intro flag k symbol resp rest msg h hg
    rw [runSymbols_cons, if_pos h, processSymbol_fetchError symbol resp msg hg]

/-- Witness for C8: with the flag always true, one failed snapshot cycle
produces exactly the log line and the backoff, and a network erroring symbol
is logged and the next symbol of the cycle is still processed. -/
theorem c8_error_containment_witness :
    runLoop (fun _ => true) 0 [none] =
      .ok [Event.logSnapshotError, Event.sleepBackoff]
    ∧ runSymbols (fun _ => true) 0
        [("AUSDT", KlineHttpResult.networkError),
         ("BUSDT", KlineHttpResult.response 400 false none)] =
      .ok (2, [Event.volumeRequest "AUSDT", Event.logVolumeError "AUSDT",
               Event.volumeRequest "BUSDT", Event.sleepInterSymbol], false) := by
  constructor
  · rw [c8_error_containment.1 (fun _ => true) 0 [] rfl]; rfl
  · rw [c8_error_containment.2 (fun _ => true) 0 "AUSDT" .networkError _
      "failed to get kline data" rfl rfl]
    rfl

/-- C4: a kline request answered with HTTP status 400 yields the nil, nil
result before the body is even considered, and the loop then emits neither an
alert nor an error log line for that symbol and proceeds with the remaining
symbols of the cycle. -/
theorem c4_http400_silent_skip :
    (∀ readError decoded,
      getBinanceVolume (.response 400 readError decoded) = .noSignal)
    ∧ (∀ flag k symbol resp rest, flag k = true →
      getBinanceVolume resp = .noSignal →
      runSymbols flag k ((symbol, resp) :: rest) =
        consEvents [Event.volumeRequest symbol, Event.sleepInterSymbol]
          (runSymbols flag (k + 1) rest)) := by
  constructor
  · intro readError decoded
    simp [getBinanceVolume]
  · intro flag k symbol resp rest h hg
    rw [runSymbols_cons, if_pos h, processSymbol_noSignal symbol resp hg]

/-- Witness for C4: a 400 response for one symbol leaves exactly the request
and the courtesy sleep in the trace and the loop ends the cycle normally. -/
theorem c4_http400_silent_skip_witness :
    runSymbols (fun _ => true) 0 [("FOOUSDT", KlineHttpResult.response 400 false none)] =
      .ok (1, [Event.volumeRequest "FOOUSDT", Event.sleepInterSymbol], false) := by
  rw [c4_http400_silent_skip.2 (fun _ => true) 0 "FOOUSDT" _ [] rfl
    (c4_http400_silent_skip.1 false none)]
  rfl

/-- C5: a response that decodes to fewer than two kline records makes
getBinanceVolume fail with the insufficient kline data error, and the loop
logs a volume error for that symbol and continues with the remaining symbols
of the same cycle. -/
theorem c5_insufficient_data :
    (∀ (statusCode : Int) (klines : List BinanceKline), statusCode ≠ 400 →
      klines.length < 2 →
      getBinanceVolume (.response statusCode false (some klines)) =
        .fetchError "insufficient kline data")
    ∧ (∀ flag k symbol resp rest msg, flag k = true →
      getBinanceVolume resp = .fetchError msg →
      runSymbols flag k ((symbol, resp) :: rest) =
        consEvents [Event.volumeRequest symbol, Event.logVolumeError symbol]
          (runSymbols flag (k + 1) rest)) := by
  constructor
  · intro statusCode klines h400 hlen
    cases klines with
    | nil => simp [getBinanceVolume, h400]
    | cons k0 tail =>
      cases tail with
      | nil => simp [getBinanceVolume, h400]
      | cons k1 tail2 => exact absurd hlen (by simp)
  · intro flag k symbol resp rest msg h hg
    rw [runSymbols_cons, if_pos h, processSymbol_fetchError symbol resp msg hg]

/-- Witness for C5: a one-record body yields the insufficient data error and
the loop logs it and finishes the cycle with the symbol skipped. -/
theorem c5_insufficient_data_witness :
    runSymbols (fun _ => true) 0
      [("XUSDT", KlineHttpResult.response 200 false
        (some [[.str "", .str "", .str "", .str "", .str "", .str "1.0"]]))] =
      .ok (1, [Event.volumeRequest "XUSDT", Event.logVolumeError "XUSDT"], false) := by
  rw [c5_insufficient_data.2 (fun _ => true) 0 "XUSDT" _ [] _ rfl
    (c5_insufficient_data.1 200 [[.str "", .str "", .str "", .str "", .str "", .str "1.0"]]
      (by decide) (by decide))]
  rfl

/-- C2 counterexample: a response with at least two records whose parsed
previous volume is zero for which getBinanceVolume does not return the
nil, nil result: the current record carries a non-string volume field, so the
unchecked type assertion on it panics before the zero-volume check runs. -/
theorem c2_counterexample_panic_before_zero_check :
    parseVolume "0" = 0 ∧
    getBinanceVolume respZeroPrevNumCurr = .goPanic "interface conversion" ∧
    getBinanceVolume respZeroPrevNumCurr ≠ .noSignal := by
  refine ⟨by decide, by decide, by decide⟩

/-- C2 amended: for every kline response with at least two records whose
volume fields are both JSON strings, a previous volume that parses to zero
makes getBinanceVolume return nil, nil; the division lies in the branch this
result excludes, and the per-symbol loop step then emits no alert. -/
theorem c2_amended_zero_prev_no_signal :
    ∀ (statusCode : Int) (k0 k1 : BinanceKline) (rest : List BinanceKline)
      (prevStr currStr : String),
      statusCode ≠ 400 →
      volumeFieldString k0 = .ok prevStr →
      volumeFieldString k1 = .ok currStr →
      parseVolume prevStr = 0 →
      getBinanceVolume (.response statusCode false (some (k0 :: k1 :: rest))) =
        .noSignal
      ∧ (∀ symbol evs,
          processSymbol symbol
            (.response statusCode false (some (k0 :: k1 :: rest))) = .ok evs →
          ∀ d, Event.alert symbol d ∉ evs) := by
  intro statusCode k0 k1 rest prevStr currStr h400 hk0 hk1 hzero
  have hmain : getBinanceVolume
      (.response statusCode false (some (k0 :: k1 :: rest))) = .noSignal := by
    simp [getBinanceVolume, h400, hk0, hk1, hzero]
  refine ⟨hmain, ?_⟩
  intro symbol evs hp d
  rw [processSymbol_noSignal symbol _ hmain] at hp
  simp only [Except.ok.injEq] at hp
  subst hp
  simp

/-- Witness for the amended C2: both volume fields are strings, the previous
one parses to zero, the fetch produces the nil, nil result, and the loop step
on that response emits no alert. -/
theorem c2_amended_zero_prev_no_signal_witness :
    getBinanceVolume (.response 200 false (some
      [[.str "", .str "", .str "", .str "", .str "", .str "0.0"],
       [.str "", .str "", .str "", .str "", .str "", .str "9.0"]])) =
      .noSignal
    ∧ Event.alert "XUSDT" ⟨0, 9, 0⟩ ∉
        [Event.volumeRequest "XUSDT", Event.sleepInterSymbol] := by
  have h := c2_amended_zero_prev_no_signal 200
    [.str "", .str "", .str "", .str "", .str "", .str "0.0"]
    [.str "", .str "", .str "", .str "", .str "", .str "9.0"]
    [] "0.0" "9.0" (by decide) rfl rfl (by decide)
  exact ⟨h.1, h.2 "XUSDT" _ (processSymbol_noSignal "XUSDT" _ h.1) ⟨0, 9, 0⟩⟩

/-- C3 counterexample: a body that decodes as a JSON array of two records on
which getBinanceVolume does crash: the volume field of the first record is a
JSON number, and the unchecked string type assertion panics, instead of the
malformed value being parsed to zero. -/
theorem c3_counterexample_non_string_field_panics :
    getBinanceVolume respNumPrev = .goPanic "interface conversion" := by
  decide

/-- C3 amended: for every kline response with at least two records whose
volume fields are both JSON strings, getBinanceVolume does not crash
regardless of the content of those strings: a malformed previous volume
string parses to zero and routes the call through the nil, nil path; a
non-string volume field, by contrast, panics. -/
theorem c3_amended_string_fields_never_crash :
    ∀ (statusCode : Int) (k0 k1 : BinanceKline) (rest : List BinanceKline)
      (prevStr currStr : String),
      statusCode ≠ 400 →
      volumeFieldString k0 = .ok prevStr →
      volumeFieldString k1 = .ok currStr →
      (∀ m, getBinanceVolume
        (.response statusCode false (some (k0 :: k1 :: rest))) ≠ .goPanic m)
      ∧ (parseDecimal prevStr = none →
        getBinanceVolume (.response statusCode false (some (k0 :: k1 :: rest))) =
          .noSignal) := by
  intro statusCode k0 k1 rest prevStr currStr h400 hk0 hk1
  constructor
  · intro m
    by_cases hzero : parseVolume prevStr = 0
    · simp [getBinanceVolume, h400, hk0, hk1, hzero]
    · simp [getBinanceVolume, h400, hk0, hk1, hzero]
  · intro hmal
    have hzero : parseVolume prevStr = 0 := by
      rw [parseVolume, hmal]
      rfl
    simp [getBinanceVolume, h400, hk0, hk1, hzero]

/-- Witness for the amended C3: a garbage previous volume string does not
crash the fetcher and lands on the nil, nil path. -/
theorem c3_amended_string_fields_never_crash_witness :
    getBinanceVolume (.response 200 false (some
      [[.str "", .str "", .str "", .str "", .str "", .str "oops"],
       [.str "", .str "", .str "", .str "", .str "", .str "2.0"]])) ≠
      .goPanic "interface conversion"
    ∧ getBinanceVolume (.response 200 false (some
      [[.str "", .str "", .str "", .str "", .str "", .str "oops"],
       [.str "", .str "", .str "", .str "", .str "", .str "2.0"]])) =
      .noSignal := by
  have h := c3_amended_string_fields_never_crash 200
    [.str "", .str "", .str "", .str "", .str "", .str "oops"]
    [.str "", .str "", .str "", .str "", .str "", .str "2.0"]
    [] "oops" "2.0" (by decide) rfl rfl
  exact ⟨h.1 "interface conversion", h.2 (by decide)⟩

/-- C10: whenever the response has at least two records with string volume
fields and the parsed previous volume is strictly positive, getBinanceVolume
returns the populated sample, whatever the current volume field holds; a
current volume that is zero or fails to parse makes the sample carry ratio
zero, and the nil, nil result is never caused by the current volume. -/
theorem c10_positive_prev_always_sample :
    ∀ (statusCode : Int) (k0 k1 : BinanceKline) (rest : List BinanceKline)
      (prevStr currStr : String),
      statusCode ≠ 400 →
      volumeFieldString k0 = .ok prevStr →
      volumeFieldString k1 = .ok currStr →
      0 < parseVolume prevStr →
      getBinanceVolume (.response statusCode false (some (k0 :: k1 :: rest))) =
        .sample ⟨parseVolume prevStr, parseVolume currStr,
          parseVolume currStr / parseVolume prevStr⟩
      ∧ (parseVolume currStr = 0 →
        parseVolume currStr / parseVolume prevStr = 0) := by
  intro statusCode k0 k1 rest prevStr currStr h400 hk0 hk1 hpos
  constructor
  · simp [getBinanceVolume, h400, hk0, hk1, ne_of_gt hpos]
  · intro hcurr
    rw [hcurr, zero_div]

/-- Witness for C10: previous volume 100, current volume field a garbage
string: the fetch still returns a sample, and its ratio is zero. -/
theorem c10_positive_prev_always_sample_witness :
    getBinanceVolume (.response 200 false (some
      [[.str "", .str "", .str "", .str "", .str "", .str "100.0"],
       [.str "", .str "", .str "", .str "", .str "", .str "junk"]])) =
      .sample ⟨parseVolume "100.0", parseVolume "junk",
        parseVolume "junk" / parseVolume "100.0"⟩
    ∧ parseVolume "junk" / parseVolume "100.0" = 0 := by
  have h := c10_positive_prev_always_sample 200
    [.str "", .str "", .str "", .str "", .str "", .str "100.0"]
    [.str "", .str "", .str "", .str "", .str "", .str "junk"]
    [] "100.0" "junk" (by decide) rfl rfl (by decide)
  exact ⟨h.1, h.2 (by decide)⟩

/-- Inserting an entry is a permutation of consing it. -/
theorem insertEntry_perm (e : Int × Bool) (l : List (Int × Bool)) :
    List.Perm (insertEntry e l) (e :: l) := by
  induction l with
  | nil => exact List.Perm.refl _
  | cons f rest ih =>
    rw [insertEntry]
    by_cases hle : e.1 ≤ f.1
    · rw [if_pos hle]
    · rw [if_neg hle]
      exact (List.Perm.cons f ih).trans (List.Perm.swap e f rest)

/-- The key ordering applied by serialization permutes the entries. -/
theorem sortStatusEntries_perm (m : List (Int × Bool)) :
    List.Perm (sortStatusEntries m) m := by
  induction m with
  | nil => exact List.Perm.refl _
  | cons e rest ih =>
    exact (insertEntry_perm e (sortStatusEntries rest)).trans (List.Perm.cons e ih)

/-- With duplicate free keys, a lookup returning a value is the same as the
entry being present. -/
theorem lookupStatus_eq_some_iff (m : StatusMap) (h : (m.map Prod.fst).Nodup)
    (chatID : Int) (b : Bool) :
    lookupStatus m chatID = some b ↔ (chatID, b) ∈ m := by
  induction m with
  | nil => simp [lookupStatus]
  | cons e rest ih =>
    obtain ⟨e1, e2⟩ := e
    simp only [List.map_cons, List.nodup_cons] at h
    by_cases he : e1 = chatID
    · subst he
      rw [lookupStatus, List.find?_cons_of_pos _ (by simp)]
      constructor
      · intro hb
        have hb2 : e2 = b := by simpa using hb
        subst hb2
        exact List.mem_cons_self _ _
      · intro hmem
        rcases List.mem_cons.mp hmem with heq | hmem2
        · have hb2 : b = e2 := congrArg Prod.snd heq
          subst hb2
          rfl
        · exact absurd (List.mem_map_of_mem Prod.fst hmem2) h.1
    · rw [lookupStatus, List.find?_cons_of_neg _ (by simp [he])]
      rw [← lookupStatus, ih h.2]
      constructor
      · intro hmem
        exact List.mem_cons_of_mem _ hmem
      · intro hmem
        rcases List.mem_cons.mp hmem with heq | hmem2
        · exact absurd (congrArg Prod.fst heq).symm he
        · exact hmem2

/-- Serialization key ordering does not change any lookup, provided the keys
are duplicate free. -/
theorem lookupStatus_sort (m : StatusMap) (h : (m.map Prod.fst).Nodup)
    (chatID : Int) :
    lookupStatus (sortStatusEntries m) chatID = lookupStatus m chatID := by
  have hperm := sortStatusEntries_perm m
  have hnodup : ((sortStatusEntries m).map Prod.fst).Nodup :=
    ((hperm.map Prod.fst).nodup_iff).mpr h
  cases hm : lookupStatus m chatID with
  | some b =>
    exact (lookupStatus_eq_some_iff _ hnodup _ b).mpr
      (hperm.mem_iff.mpr ((lookupStatus_eq_some_iff _ h _ b).mp hm))
  | none =>
    cases hs : lookupStatus (sortStatusEntries m) chatID with
    | none => rfl
    | some b =>
      have hmem : (chatID, b) ∈ m :=
        hperm.mem_iff.mp ((lookupStatus_eq_some_iff _ hnodup _ b).mp hs)
      rw [(lookupStatus_eq_some_iff _ h _ b).mpr hmem] at hm
      exact absurd hm (by simp)

/-- With duplicate free keys, being scheduled for a spawned loop is the same
as being recorded enabled. -/
theorem mem_enabledIds_iff (doc : StatusDoc) (h : (doc.map Prod.fst).Nodup)
    (chatID : Int) :
    chatID ∈ enabledIds doc ↔ lookupStatus doc chatID = some true := by
  rw [lookupStatus_eq_some_iff doc h]
  rw [enabledIds]
  simp only [List.mem_map, List.mem_filter]
  constructor
  · rintro ⟨⟨a, b⟩, ⟨hmem, hb⟩, ha⟩
    simp only at ha hb
    subst ha
    rw [show b = true from by simpa using hb] at hmem
    exact hmem
  · intro hmem
    exact ⟨(chatID, true), ⟨hmem, rfl⟩, rfl⟩

/-- C6: saving the monitoring state and loading it back reconstructs a state
with exactly the same per-session lookups and spawns one monitoring loop
precisely for each session recorded enabled; loading with the backing file
absent returns the empty mapping and spawns nothing. -/
theorem c6_persistence_roundtrip :
    (∀ m : StatusMap, (m.map Prod.fst).Nodup →
      (∀ chatID, lookupStatus (loadMonitoringStatus (saveMonitoringStatus m)).1
          chatID = lookupStatus m chatID)
      ∧ (∀ chatID, chatID ∈ (loadMonitoringStatus (saveMonitoringStatus m)).2 ↔
          lookupStatus m chatID = some true))
    ∧ loadMonitoringStatus none = ([], []) := by
  constructor
  · intro m h
    have hnodup : ((sortStatusEntries m).map Prod.fst).Nodup :=
      (((sortStatusEntries_perm m).map Prod.fst).nodup_iff).mpr h
    constructor
    · intro chatID
      exact lookupStatus_sort m h chatID
    · intro chatID
      rw [show (loadMonitoringStatus (saveMonitoringStatus m)).2 =
        enabledIds (sortStatusEntries m) from rfl]
      rw [mem_enabledIds_iff (sortStatusEntries m) hnodup chatID]
      rw [lookupStatus_sort m h chatID]
  · rfl

/-- Witness for C6 on the two-session state with session 1 enabled and
session 2 disabled: after the round trip, session 1 is spawned and looked up
enabled, and session 2 is looked up disabled. -/
theorem c6_persistence_roundtrip_witness :
    (1 : Int) ∈ (loadMonitoringStatus (saveMonitoringStatus
      [(1, true), (2, false)])).2
    ∧ lookupStatus (loadMonitoringStatus (saveMonitoringStatus
      [(1, true), (2, false)])).1 2 = lookupStatus [(1, true), (2, false)] 2 :=
  ⟨((c6_persistence_roundtrip.1 [(1, true), (2, false)] (by decide)).2 1).mpr
      (by decide),
   (c6_persistence_roundtrip.1 [(1, true), (2, false)] (by decide)).1 2⟩

/-- C7: handling the monitor command for a session already recorded running
spawns no loop, performs no persistence write, and only replies that
monitoring is already running; handling the stop command for a session not
recorded running performs no store and no persistence write and only replies
that monitoring is not running. -/
theorem c7_idempotent_commands :
    ∀ (m : StatusMap) (chatID : Int),
      (isMonitoring m chatID = true →
        handleCommand m chatID .monitor =
          ⟨m, [], false, "Monitoring is already running!"⟩)
      ∧ (isMonitoring m chatID = false →
        handleCommand m chatID .stop =
          ⟨m, [], false, "Monitoring is not running!"⟩) := by
  intro m chatID
  constructor
  · intro h
    rw [handleCommand, if_pos h]
  · intro h
    rw [handleCommand, if_neg (by simp [h])]

/-- Witness for C7: with session 7 recorded running, monitor only replies;
with session 8 absent from the state, stop only replies. -/
theorem c7_idempotent_commands_witness :
    handleCommand [(7, true)] 7 .monitor =
      ⟨[(7, true)], [], false, "Monitoring is already running!"⟩
    ∧ handleCommand [(7, true)] 8 .stop =
      ⟨[(7, true)], [], false, "Monitoring is not running!"⟩ :=
  ⟨(c7_idempotent_commands [(7, true)] 7).1 (by decide),
   (c7_idempotent_commands [(7, true)] 8).2 (by decide)⟩

end VolumeAlert
